import Mathlib

/-!
Verification of the Terraform repository-curation and maintainability-scoring
pipeline: a shallow embedding of the block extractor and the Maintainability
Index scoring engine from `build_dataset.py`, and of the deep maturity filter
(`analyze_repository`) from `mine_repositories.py`, together with theorems
settling the specification claims.
-/

set_option maxRecDepth 4000

/-! ## Block extractor (`TerraformCodeExtractor` in `build_dataset.py`)

The extractor scans a `.tf` file with one regex per block kind
(`resource\s+"..."\s+"..."\s*\x7b`, `module\s+"..."\s*\x7b`, ...), then
matches braces line by line starting at the match's line.  We embed the file
content as a `List Char` and each regex as a deterministic matcher (the
patterns are backtracking-free: every greedy class is followed by a character
it excludes). -/

/-- ASCII whitespace, as matched by the regex class `\s`. -/
def isPySpace (c : Char) : Bool :=
  c == ' ' || c == '\t' || c == '\n' || c == '\r' || c == '\x0b' || c == '\x0c'

/-- Match `"([^\"]+)"` at the head of the input: an opening quote, a nonempty
run of non-quote characters (the capture), and a closing quote.  Returns the
capture and the rest of the input. -/
def matchQuoted (cs : List Char) : Option (List Char × List Char) :=
  match cs with
  | '\"' :: rest =>
    let lab := rest.takeWhile (fun c => c ≠ '\"')
    let r2 := rest.dropWhile (fun c => c ≠ '\"')
    if lab.isEmpty then none
    else
      match r2 with
      | '\"' :: r3 => some (lab, r3)
      | _ => none
  | _ => none

/-- Match `(\s+"([^\"]+)")^n` at the head of the input: `n` quoted labels,
each preceded by at least one whitespace character. -/
def matchLabels : ℕ → List Char → Option (List (List Char) × List Char)
  | 0, r => some ([], r)
  | n + 1, r =>
    let sp := r.takeWhile isPySpace
    if sp.isEmpty then none
    else
      match matchQuoted (r.dropWhile isPySpace) with
      | some (lab, r2) =>
        match matchLabels n r2 with
        | some (labs, r3) => some (lab :: labs, r3)
        | none => none
      | none => none

/-- Match one of the block-header regexes at the head of the input: the
keyword `kw`, then `nLabels` quoted labels, then `\s*\x7b`.  Returns the
captured labels and the total length of the match (up to and including the
opening brace). -/
def matchBlockHeader (kw : String) (nLabels : ℕ) (cs : List Char) :
    Option (List (List Char) × ℕ) :=
  let k := kw.toList
  if cs.take k.length = k then
    match matchLabels nLabels (cs.drop k.length) with
    | some (labs, r1) =>
      let r2 := r1.dropWhile isPySpace
      match r2 with
      | '\x7b' :: _ => some (labs, cs.length - r2.length + 1)
      | _ => none
    | none => none
  else none

/-- `re.finditer`, fuelled: scan left to right, emitting each leftmost
non-overlapping match (its start position and captures) and resuming after
the match.  Every step consumes at least one character, so fuel equal to the
input length never runs out. -/
def findMatchesAux (m : List Char → Option (List (List Char) × ℕ)) :
    ℕ → List Char → ℕ → List (ℕ × List (List Char))
  | 0, _, _ => []
  | _, [], _ => []
  | fuel + 1, c :: cs, pos =>
    match m (c :: cs) with
    | some (labels, len) =>
      (pos, labels) :: findMatchesAux m fuel (cs.drop (len - 1)) (pos + len)
    | none => findMatchesAux m fuel cs (pos + 1)

/-- `re.finditer` over the whole input. -/
def findMatches (m : List Char → Option (List (List Char) × ℕ))
    (cs : List Char) (pos : ℕ) : List (ℕ × List (List Char)) :=
  findMatchesAux m cs.length cs pos

/-- Python's `content.split("\n")`: split at every newline, keeping empty
pieces. -/
def splitNl : List Char → List (List Char)
  | [] => [[]]
  | c :: cs =>
    if c = '\n' then [] :: splitNl cs
    else
      match splitNl cs with
      | [] => [[c]]
      | l :: ls => (c :: l) :: ls

/-- Python's `"\n".join(lines)`. -/
def joinNl : List (List Char) → List Char
  | [] => []
  | [l] => l
  | l :: ls => l ++ '\n' :: joinNl ls

/-- One line of `_extract_block`'s character loop: update the brace counter
and the `in_block` flag for each character; `none` means the loop returned
inside this line (depth came back to zero inside a block). -/
def lineStep : ℤ → Bool → List Char → Option (ℤ × Bool)
  | bc, ib, [] => some (bc, ib)
  | bc, ib, c :: cs =>
    let bc2 := if c = '\x7b' then bc + 1 else if c = '\x7d' then bc - 1 else bc
    let ib2 := if c = '\x7b' then true else ib
    if ib2 = true ∧ bc2 = 0 then none else lineStep bc2 ib2 cs

/-- The line loop of `_extract_block`: append each line to the accumulator,
scan its characters, and on close return the (1-based) closing line number
and the joined block text; `(-1, "")` if the file ends first. -/
def extractBlockAux (bc : ℤ) (ib : Bool) (acc : List (List Char)) (idx : ℕ) :
    List (List Char) → ℤ × List Char
  | [] => (-1, [])
  | l :: ls =>
    match lineStep bc ib l with
    | none => ((idx : ℤ) + 1, joinNl (acc ++ [l]))
    | some (bc2, ib2) => extractBlockAux bc2 ib2 (acc ++ [l]) (idx + 1) ls

/-- `TerraformCodeExtractor._extract_block`. -/
def extractBlock (lines : List (List Char)) (startIdx : ℕ) : ℤ × List Char :=
  extractBlockAux 0 false [] startIdx (lines.drop startIdx)

/-- Block-name derivation from `_parse_tf_file`: `type.name` for
resource/data, the single label for module/variable/output/provider, the
keyword itself otherwise. -/
def blockNameOf (blockType : String) (labels : List (List Char)) : List Char :=
  if blockType = "resource" ∨ blockType = "data" then
    labels.getD 0 [] ++ '.' :: labels.getD 1 []
  else if blockType = "module" ∨ blockType = "variable" ∨ blockType = "output" ∨
      blockType = "provider" then
    labels.getD 0 []
  else blockType.toList

/-- A Terraform code block as produced by `_parse_tf_file`. -/
structure CodeBlock where
  filePath : String
  blockType : String
  blockName : List Char
  startLine : ℕ
  endLine : ℤ
  code : List Char
  loc : ℕ
deriving DecidableEq

/-- The pattern table of `_parse_tf_file`, in the dictionary's insertion
order: keyword, number of quoted labels. -/
def tfPatterns : List (String × ℕ) :=
  [("resource", 2), ("module", 1), ("data", 2), ("variable", 1),
   ("output", 1), ("locals", 0), ("provider", 1), ("terraform", 0)]

/-- `TerraformCodeExtractor._parse_tf_file`: for each pattern, for each match,
compute the 1-based start line, run the brace matcher from that line, and
keep the block when the matcher closed it (`end_line > 0`). -/
def parseTfFile (content : String) (relativePath : String) : List CodeBlock :=
  let cs := content.toList
  let lines := splitNl cs
  tfPatterns.flatMap fun pat =>
    (findMatches (matchBlockHeader pat.1 pat.2) cs 0).filterMap fun mt =>
      let startLine := (cs.take mt.1).count '\n' + 1
      let res := extractBlock lines (startLine - 1)
      if res.1 > 0 then
        some { filePath := relativePath, blockType := pat.1,
               blockName := blockNameOf pat.1 mt.2,
               startLine := startLine, endLine := res.1,
               code := res.2, loc := (splitNl res.2).length }
      else none

/-- The synthetic file of the end-to-end test: one `resource "a" "b" \x7b\x7d`
block and one `variable "x" \x7b\x7d` block. -/
def synthContent : String := "resource \"a\" \"b\" \x7b\x7d\nvariable \"x\" \x7b\x7d"

/-- The first block of the synthetic end-to-end file. -/
def resourceBlockAB : CodeBlock :=
  { filePath := "main.tf", blockType := "resource", blockName := "a.b".toList,
    startLine := 1, endLine := 1,
    code := "resource \"a\" \"b\" \x7b\x7d".toList, loc := 1 }

/-- The second block of the synthetic end-to-end file. -/
def variableBlockX : CodeBlock :=
  { filePath := "main.tf", blockType := "variable", blockName := "x".toList,
    startLine := 2, endLine := 2,
    code := "variable \"x\" \x7b\x7d".toList, loc := 1 }

/-- The all-zero code block used for concrete scoring witnesses. -/
def zeroBlock : CodeBlock :=
  { filePath := "", blockType := "", blockName := [], startLine := 0,
    endLine := 0, code := [], loc := 0 }

/-! ## MI scoring engine (`MaintainabilityIndexCalculator` in `build_dataset.py`)

The scoring engine is a pure function of one TerraMetric record and one code
block.  The Python code computes over floats with fractional exponents
(`** 1.2`, `** 1.1`); we embed it over the reals with `Real.rpow`, reading the
decimal constants exactly.  All TerraMetric values are counts, embedded as
naturals. -/

/-- The TerraMetric record (`RawMetrics` in the spec), as produced by
`TerraMetricRunner._parse_metrics` / `_empty_metrics`. -/
structure RawMetrics where
  tmLoc : ℕ
  tmNumVariables : ℕ
  tmNumOutputs : ℕ
  tmComplexity : ℕ
  tmNestingDepth : ℕ
  tmNumDependencies : ℕ
  tmNumResources : ℕ
  tmNumModules : ℕ
  tmNumBlocks : ℕ
  tmNumData : ℕ
  tmNumProviders : ℕ
  tmNumTokens : ℕ
  tmNumStringValues : ℕ
  tmNumHardCoded : ℕ
  tmNumLoops : ℕ
  tmNumConditions : ℕ
  tmNumFunctionCalls : ℕ
  tmNumDeprecated : ℕ
  tmNumWildcards : ℕ
  tmGraphDepth : ℕ
  tmNumAttrs : ℕ
  tmNumVarsInBlock : ℕ
deriving DecidableEq

/-- `TerraMetricRunner._empty_metrics`: the all-zero record substituted when
the Metrics Tool is unavailable or fails. -/
def emptyMetrics : RawMetrics :=
  ⟨0, 0, 0, 0, 0, 0, 0, 0, 0, 0, 0, 0, 0, 0, 0, 0, 0, 0, 0, 0, 0, 0⟩

/-- The merged metrics dictionary built by
`MaintainabilityIndexCalculator._extract_metrics`. -/
structure Metrics where
  loc : ℕ
  numVariables : ℕ
  numOutputs : ℕ
  numResources : ℕ
  numModules : ℕ
  numData : ℕ
  numProviders : ℕ
  numBlocks : ℕ
  blockLoc : ℕ
  blockType : String
  complexity : ℕ
  nestingDepth : ℕ
  graphDepth : ℕ
  numAttrs : ℕ
  numHardCoded : ℕ
  numVarsInBlock : ℕ
  numDependencies : ℕ
  numLoops : ℕ
  numConditions : ℕ
  numFunctionCalls : ℕ
  numDeprecated : ℕ
  numWildcards : ℕ
deriving DecidableEq

/-- `MaintainabilityIndexCalculator._extract_metrics`. -/
def extractMetrics (tm : RawMetrics) (b : CodeBlock) : Metrics :=
  { loc := tm.tmLoc, numVariables := tm.tmNumVariables,
    numOutputs := tm.tmNumOutputs, numResources := tm.tmNumResources,
    numModules := tm.tmNumModules, numData := tm.tmNumData,
    numProviders := tm.tmNumProviders, numBlocks := tm.tmNumBlocks,
    blockLoc := b.loc, blockType := b.blockType,
    complexity := tm.tmComplexity, nestingDepth := tm.tmNestingDepth,
    graphDepth := tm.tmGraphDepth, numAttrs := tm.tmNumAttrs,
    numHardCoded := tm.tmNumHardCoded, numVarsInBlock := tm.tmNumVarsInBlock,
    numDependencies := tm.tmNumDependencies, numLoops := tm.tmNumLoops,
    numConditions := tm.tmNumConditions,
    numFunctionCalls := tm.tmNumFunctionCalls,
    numDeprecated := tm.tmNumDeprecated, numWildcards := tm.tmNumWildcards }

noncomputable section

/-- Module composition sub-score (40% of Resource Composition): plateau 90
for a module ratio in [0.20, 0.60], graded penalties outside, neutral 60 when
there are no resources and no modules. -/
def moduleScore (numResources numModules : ℕ) : ℝ :=
  let totalInfra := numResources + numModules
  if totalInfra > 0 then
    let moduleRatio : ℝ := (numModules : ℝ) / (totalInfra : ℝ)
    if 0.2 ≤ moduleRatio ∧ moduleRatio ≤ 0.6 then 90
    else if moduleRatio < 0.2 then max 40 (90 * (moduleRatio / 0.2) ^ (1.2 : ℝ))
    else max 30 (90 - (moduleRatio - 0.6) * 150)
  else 60

/-- Block size sub-score (35% of Resource Composition). -/
def sizeScore (blockLoc : ℕ) : ℝ :=
  if blockLoc = 0 then 70
  else if 10 ≤ blockLoc ∧ blockLoc ≤ 60 then
    if blockLoc ≤ 25 then 70 + ((blockLoc : ℝ) - 10) / 15 * 25
    else 95 - ((blockLoc : ℝ) - 25) / 35 * 15
  else if blockLoc < 10 then 50 + (blockLoc : ℝ) / 10 * 20
  else max 20 (80 - ((blockLoc : ℝ) - 60) ^ (1.1 : ℝ) / 5)

/-- Variable usage sub-score (25% of Resource Composition). -/
def varScore (numVariables numBlocks : ℕ) : ℝ :=
  let varRatio : ℝ := (numVariables : ℝ) / ((max numBlocks 1 : ℕ) : ℝ)
  if 0.4 ≤ varRatio ∧ varRatio ≤ 1.5 then 90
  else if varRatio < 0.4 then max 50 (90 * (varRatio / 0.4) ^ (1.1 : ℝ))
  else max 40 (90 - (varRatio - 1.5) * 20)

/-- `MaintainabilityIndexCalculator._calculate_composition_score`. -/
def calcCompositionScore (m : Metrics) : ℝ :=
  moduleScore m.numResources m.numModules * 0.40 + sizeScore m.blockLoc * 0.35 +
    varScore m.numVariables m.numBlocks * 0.25

/-- Explicitness sub-score (40% of Configuration Clarity): neutral 90 when
the block has no attributes. -/
def explicitScore (numHardCoded numAttrs : ℕ) : ℝ :=
  if numAttrs > 0 then
    let hardCodedRatio : ℝ := (numHardCoded : ℝ) / (numAttrs : ℝ)
    if hardCodedRatio ≤ 0.25 then 90
    else max 30 (90 * (0.25 / hardCodedRatio) ^ (1.2 : ℝ))
  else 90

/-- Attribute count sub-score (35% of Configuration Clarity). -/
def attrScore (numAttrs : ℕ) : ℝ :=
  if numAttrs ≤ 12 then 90
  else if numAttrs ≤ 25 then 90 - ((numAttrs : ℝ) - 12) * 3
  else max 20 (51 - ((numAttrs : ℝ) - 25) ^ (1.2 : ℝ) / 3)

/-- Nesting depth sub-score (25% of Configuration Clarity). -/
def nestingScore (nesting : ℕ) : ℝ :=
  if nesting ≤ 1 then 90
  else if nesting ≤ 2 then 70
  else if nesting ≤ 3 then 45
  else max 15 (45 - ((nesting : ℝ) - 3) * 12)

/-- `MaintainabilityIndexCalculator._calculate_clarity_score`. -/
def calcClarityScore (m : Metrics) : ℝ :=
  explicitScore m.numHardCoded m.numAttrs * 0.40 + attrScore m.numAttrs * 0.35 +
    nestingScore m.nestingDepth * 0.25

/-- Cyclomatic complexity sub-score (35% of Dependency Management). -/
def complexityScore (complexity : ℕ) : ℝ :=
  if complexity ≤ 4 then 90
  else if complexity ≤ 8 then 90 - ((complexity : ℝ) - 4) * 8
  else max 20 (58 - ((complexity : ℝ) - 8) ^ (1.2 : ℝ) / 2)

/-- Dependency coupling sub-score (35% of Dependency Management). -/
def depScore (deps : ℕ) : ℝ :=
  if deps ≤ 3 then 90
  else if deps ≤ 6 then 90 - ((deps : ℝ) - 3) * 10
  else max 20 (60 - ((deps : ℝ) - 6) ^ (1.2 : ℝ) / 2)

/-- Dependency depth sub-score (30% of Dependency Management). -/
def depthScore (graphDepth : ℕ) : ℝ :=
  if graphDepth ≤ 1 then 90
  else if graphDepth ≤ 3 then 90 - ((graphDepth : ℝ) - 1) * 15
  else max 20 (60 - ((graphDepth : ℝ) - 3) * 10)

/-- `MaintainabilityIndexCalculator._calculate_dependency_score`. -/
def calcDependencyScore (m : Metrics) : ℝ :=
  complexityScore m.complexity * 0.35 + depScore m.numDependencies * 0.35 +
    depthScore m.graphDepth * 0.30

/-- Deprecated-function sub-score (40% of Security & Best Practices). -/
def deprecatedScore (numDeprecated : ℕ) : ℝ :=
  max 20 (90 - (numDeprecated : ℝ) * 35)

/-- Wildcard sub-score (30% of Security & Best Practices). -/
def wildcardScore (numWildcards : ℕ) : ℝ :=
  max 20 (90 - (numWildcards : ℝ) * 30)

/-- Controlled-dynamism sub-score (30% of Security & Best Practices). -/
def dynamicScore (dynamicCount : ℕ) : ℝ :=
  if dynamicCount = 0 then 90
  else if dynamicCount ≤ 2 then 80
  else if dynamicCount ≤ 4 then 80 - ((dynamicCount : ℝ) - 2) * 15
  else max 20 (50 - ((dynamicCount : ℝ) - 4) * 10)

/-- `MaintainabilityIndexCalculator._calculate_security_score`. -/
def calcSecurityScore (m : Metrics) : ℝ :=
  deprecatedScore m.numDeprecated * 0.40 + wildcardScore m.numWildcards * 0.30 +
    dynamicScore (m.numLoops + m.numConditions) * 0.30

/-- Output completeness sub-score (50% of Operational Readiness): neutral 70
when the file has no resources. -/
def outputScore (numOutputs numResources : ℕ) : ℝ :=
  if numResources > 0 then
    let outputRatio : ℝ := (numOutputs : ℝ) / (numResources : ℝ)
    if 0.25 ≤ outputRatio ∧ outputRatio ≤ 0.75 then 90
    else if outputRatio < 0.25 then max 30 (90 * (outputRatio / 0.25) ^ (1.2 : ℝ))
    else max 40 (90 - (outputRatio - 0.75) * 60)
  else 70

/-- Data-source usage sub-score (50% of Operational Readiness). -/
def dataScore (numData numResources : ℕ) : ℝ :=
  let dataRatio : ℝ := (numData : ℝ) / ((max (numResources + numData) 1 : ℕ) : ℝ)
  if dataRatio ≤ 0.25 then 90
  else if dataRatio ≤ 0.4 then 90 - (dataRatio - 0.25) * 100
  else max 30 (75 - (dataRatio - 0.4) ^ (1.2 : ℝ) * 80)

/-- `MaintainabilityIndexCalculator._calculate_operational_score`. -/
def calcOperationalScore (m : Metrics) : ℝ :=
  outputScore m.numOutputs m.numResources * 0.50 + dataScore m.numData m.numResources * 0.50

/-- Python's `round(x, 2)` in exact arithmetic: round `100·x` to the nearest
integer and divide by 100. -/
def roundTo2 (x : ℝ) : ℝ := ((round (x * 100) : ℤ) : ℝ) / 100

/-- `MaintainabilityIndexCalculator.calculate_mi`: the weighted blend of the
five category scores, rounded to two decimal places. -/
def calculateMi (tm : RawMetrics) (b : CodeBlock) : ℝ :=
  let m := extractMetrics tm b
  roundTo2 (calcCompositionScore m * 0.25 + calcClarityScore m * 0.25 +
    calcDependencyScore m * 0.20 + calcSecurityScore m * 0.20 +
    calcOperationalScore m * 0.10)

end

/-! ## Deep maturity filter (`analyze_repository` in `mine_repositories.py`)

The deep filter checks C4 (IaC file ratio), C1 (commit frequency) and C2
(contributor concentration) strictly in sequence, returning early on the
first failure.  We embed the repository as its file counts plus an optional
commit list (`none` models `git.Repo` raising on a non-repository path; the
list is ordered newest first, as `iter_commits` yields it), and instrument
the result with the number of times the git history provider was opened. -/

/-- One commit, as the git history provider yields it: an author identity
and a commit timestamp (in seconds). -/
structure Commit where
  authorEmail : String
  committedDatetime : ℤ
deriving DecidableEq

/-- Placeholder commit used for the (guarded) list indexing. -/
def dummyCommit : Commit := ⟨"", 0⟩

/-- A locally cloned repository, as `analyze_repository` observes it. -/
structure RepoData where
  totalFiles : ℕ
  iacFiles : ℕ
  git : Option (List Commit)
deriving DecidableEq

/-- The pass/fail flag record returned by `analyze_repository`. -/
structure AnalysisResults where
  C1_Pass : Bool
  C2_Pass : Bool
  C4_Pass : Bool
  C4_Fail : Bool
  C1_Fail : Bool
  C2_Fail : Bool
deriving DecidableEq

/-- `iac_ratio = iac_files / total_files if total_files else 0`. -/
def iacRatio (iacFiles totalFiles : ℕ) : ℚ :=
  if totalFiles ≠ 0 then (iacFiles : ℚ) / (totalFiles : ℚ) else 0

/-- `collections.Counter(c.author.email for c in all_commits)`: tally one
commit for `e`, preserving first-occurrence key order. -/
def bumpEmail (e : String) : List (String × ℕ) → List (String × ℕ)
  | [] => [(e, 1)]
  | (k, n) :: rest => if k = e then (k, n + 1) :: rest else (k, n) :: bumpEmail e rest

/-- Per-author commit counts in first-occurrence order. -/
def tallyEmails (commits : List Commit) : List (String × ℕ) :=
  commits.foldl (fun acc c => bumpEmail c.authorEmail acc) []

/-- Stable insertion by descending count, for `Counter.most_common()`. -/
def insertByCount (x : String × ℕ) : List (String × ℕ) → List (String × ℕ)
  | [] => [x]
  | y :: ys => if x.2 > y.2 then x :: y :: ys else y :: insertByCount x ys

/-- `Counter.most_common()`: the tallies sorted by count, descending,
stably. -/
def sortByCountDesc (l : List (String × ℕ)) : List (String × ℕ) :=
  l.foldl (fun acc x => insertByCount x acc) []

/-- `time_span_months = (last_commit_date - first_commit_date).days / 30.44`,
with `all_commits[0]` the newest and `all_commits[-1]` the oldest commit and
`timedelta.days` flooring the elapsed seconds over 86400. -/
def timeSpanMonths (commits : List Commit) : ℚ :=
  ((Int.fdiv ((commits.headD dummyCommit).committedDatetime -
      (commits.getLastD dummyCommit).committedDatetime) 86400 : ℤ) : ℚ) / (3044 / 100)

/-- `avg_monthly_commits = total_commits / time_span_months if
time_span_months > 0 else 0`. -/
def avgMonthlyCommits (commits : List Commit) : ℚ :=
  if timeSpanMonths commits > 0 then (commits.length : ℚ) / timeSpanMonths commits else 0

/-- `analyze_repository`, instrumented: the returned flag record, paired with
the number of times the git history provider was opened (the `Repo(repo_path)`
call).  Thresholds: C4 ratio ≥ 0.11, C1 rate ≥ 7.0 commits/month with the
span in months computed as elapsed days / 30.44, C2 top-two-contributor
ratio ≥ 0.80. -/
def analyzeRepository (r : RepoData) : AnalysisResults × ℕ :=
  if iacRatio r.iacFiles r.totalFiles < 11 / 100 then
    ({ C1_Pass := false, C2_Pass := false, C4_Pass := false,
       C4_Fail := true, C1_Fail := false, C2_Fail := false }, 0)
  else
    match r.git with
    | none =>
      ({ C1_Pass := false, C2_Pass := false, C4_Pass := true,
         C4_Fail := false, C1_Fail := false, C2_Fail := false }, 1)
    | some allCommits =>
      if allCommits.length < 2 then
        ({ C1_Pass := false, C2_Pass := false, C4_Pass := true,
           C4_Fail := false, C1_Fail := false, C2_Fail := false }, 1)
      else
        if avgMonthlyCommits allCommits < 7 then
          ({ C1_Pass := false, C2_Pass := false, C4_Pass := true,
             C4_Fail := false, C1_Fail := true, C2_Fail := false }, 1)
        else
          let contributorCommits := tallyEmails allCommits
          let totalContributorCommits := (contributorCommits.map Prod.snd).sum
          if contributorCommits.length < 2 then
            ({ C1_Pass := true, C2_Pass := false, C4_Pass := true,
               C4_Fail := false, C1_Fail := false, C2_Fail := true }, 1)
          else if totalContributorCommits = 0 then
            ({ C1_Pass := true, C2_Pass := false, C4_Pass := true,
               C4_Fail := false, C1_Fail := false, C2_Fail := true }, 1)
          else
            let sortedContributors := sortByCountDesc contributorCommits
            let topTwoCommits :=
              (sortedContributors.getD 0 ("", 0)).2 + (sortedContributors.getD 1 ("", 0)).2
            let topTwoRatio : ℚ := (topTwoCommits : ℚ) / (totalContributorCommits : ℚ)
            if topTwoRatio < 8 / 10 then
              ({ C1_Pass := true, C2_Pass := false, C4_Pass := true,
                 C4_Fail := false, C1_Fail := false, C2_Fail := true }, 1)
            else
              ({ C1_Pass := true, C2_Pass := true, C4_Pass := true,
                 C4_Fail := false, C1_Fail := false, C2_Fail := false }, 1)

/-! ## Concrete repositories used as witnesses -/

/-- A repository whose IaC ratio 0.10 fails C4, with a (never inspected)
git history attached. -/
def lowRatioRepo : RepoData := ⟨10, 1, some [⟨"a", 0⟩, ⟨"b", 86400⟩]⟩

/-- A repository passing C4 whose two commits share one timestamp, so the
span is 0 and the commit rate is treated as 0, failing C1. -/
def staleRepo : RepoData := ⟨10, 5, some [⟨"a", 0⟩, ⟨"b", 0⟩]⟩

/-- A repository passing C4, C1 and C2: three commits within one day from
two authors, with the top two authors owning all commits. -/
def fullPassRepo : RepoData := ⟨10, 5, some [⟨"a", 86400⟩, ⟨"a", 40000⟩, ⟨"b", 0⟩]⟩

/-! ## Claims about the maturity filter -/

/-- Claim C10: every result record of `analyze_repository` satisfies the
chain C2_Pass ⇒ C1_Pass ⇒ C4_Pass, and for each of C4, C1, C2 at most one of
its Pass and Fail flags is true. -/
theorem analyzeRepository_flag_invariant (r : RepoData) :
    ((analyzeRepository r).1.C2_Pass = true → (analyzeRepository r).1.C1_Pass = true) ∧
    ((analyzeRepository r).1.C1_Pass = true → (analyzeRepository r).1.C4_Pass = true) ∧
    ¬((analyzeRepository r).1.C4_Pass = true ∧ (analyzeRepository r).1.C4_Fail = true) ∧
    ¬((analyzeRepository r).1.C1_Pass = true ∧ (analyzeRepository r).1.C1_Fail = true) ∧
    ¬((analyzeRepository r).1.C2_Pass = true ∧ (analyzeRepository r).1.C2_Fail = true) := by
  obtain ⟨tf, ia, git⟩ := r
  unfold analyzeRepository
  rcases git with _ | commits <;> dsimp only <;> split_ifs <;> simp

/-- Witness for C10 at a concrete repository that reaches a full pass. -/
theorem analyzeRepository_flag_invariant_witness :
    (analyzeRepository fullPassRepo).1.C1_Pass = true ∧
    (analyzeRepository fullPassRepo).1.C4_Pass = true := by
  have h := analyzeRepository_flag_invariant fullPassRepo
  have hpass : (analyzeRepository fullPassRepo).1.C2_Pass = true := by
    norm_num [analyzeRepository, fullPassRepo, iacRatio, tallyEmails, bumpEmail,
      sortByCountDesc, insertByCount, dummyCommit, avgMonthlyCommits, timeSpanMonths,
      List.foldl, List.getLastD, List.headD, Int.fdiv, List.getD]
    norm_num [bumpEmail, insertByCount, List.getD, show ("a" : String) ≠ "b" by decide,
      show ("b" : String) ≠ "a" by decide]
  exact ⟨h.1 hpass, h.2.1 (h.1 hpass)⟩

/-- Claim C5: a repository whose IaC ratio is below 0.11 is marked C4_Fail
with the git history provider invoked zero times and the C1 and C2 pass flags
still false; and in general a C1 flag is only set once C4 passed, and a C2
flag only once C1 passed (strict sequential short-circuit). -/
theorem analyzeRepository_short_circuit (r : RepoData) :
    (iacRatio r.iacFiles r.totalFiles < 11 / 100 →
      (analyzeRepository r).2 = 0 ∧ (analyzeRepository r).1.C4_Fail = true ∧
      (analyzeRepository r).1.C1_Pass = false ∧ (analyzeRepository r).1.C2_Pass = false) ∧
    ((analyzeRepository r).1.C1_Fail = true ∨ (analyzeRepository r).1.C1_Pass = true →
      (analyzeRepository r).1.C4_Pass = true) ∧
    ((analyzeRepository r).1.C2_Fail = true ∨ (analyzeRepository r).1.C2_Pass = true →
      (analyzeRepository r).1.C1_Pass = true) := by
  obtain ⟨tf, ia, git⟩ := r
  unfold analyzeRepository
  rcases git with _ | commits <;> dsimp only <;> split_ifs <;> simp_all

/-- Witness for C5 at a concrete repository with IaC ratio 0.10 < 0.11. -/
theorem analyzeRepository_short_circuit_witness :
    (analyzeRepository lowRatioRepo).2 = 0 ∧
    (analyzeRepository lowRatioRepo).1.C4_Fail = true ∧
    (analyzeRepository lowRatioRepo).1.C1_Pass = false ∧
    (analyzeRepository lowRatioRepo).1.C2_Pass = false :=
  (analyzeRepository_short_circuit lowRatioRepo).1 (by norm_num [iacRatio, lowRatioRepo])

/-- Claim C8: once C4 has passed and the repository opens, the C1 criterion
rejects silently (no flag) when fewer than 2 commits exist; with at least 2
commits the span is the floored elapsed days over 30.44, the rate is commits
over span (0 when the span is not positive), and C1 fails exactly when the
rate is strictly below 7. -/
theorem analyzeRepository_c1_criterion (r : RepoData) (commits : List Commit)
    (hgit : r.git = some commits)
    (hc4 : ¬ iacRatio r.iacFiles r.totalFiles < 11 / 100) :
    (commits.length < 2 →
      (analyzeRepository r).1.C1_Pass = false ∧ (analyzeRepository r).1.C1_Fail = false) ∧
    (2 ≤ commits.length →
      timeSpanMonths commits =
        ((Int.fdiv ((commits.headD dummyCommit).committedDatetime -
            (commits.getLastD dummyCommit).committedDatetime) 86400 : ℤ) : ℚ) / (3044 / 100) ∧
      avgMonthlyCommits commits =
        (if timeSpanMonths commits > 0 then (commits.length : ℚ) / timeSpanMonths commits
         else 0) ∧
      ((analyzeRepository r).1.C1_Fail = true ↔ avgMonthlyCommits commits < 7) ∧
      ((analyzeRepository r).1.C1_Pass = true ↔ ¬ avgMonthlyCommits commits < 7)) := by
  obtain ⟨tf, ia, git⟩ := r
  subst hgit
  unfold analyzeRepository
  dsimp only at hc4 ⊢
  rw [if_neg hc4]
  constructor
  · intro hlen
    rw [if_pos hlen]
    exact ⟨rfl, rfl⟩
  · intro hlen
    have h2 : ¬ commits.length < 2 := by omega
    simp only [if_neg h2]
    refine ⟨rfl, rfl, ?_⟩
    split_ifs with hrate <;> simp_all

/-- Witness for C8 at a concrete repository whose two commits coincide in
time, giving span 0, rate 0 and a C1 failure. -/
theorem analyzeRepository_c1_criterion_witness :
    (analyzeRepository staleRepo).1.C1_Fail = true := by
  have h := analyzeRepository_c1_criterion staleRepo [⟨"a", 0⟩, ⟨"b", 0⟩] rfl
    (by norm_num [iacRatio, staleRepo])
  exact ((h.2 (by decide)).2.2.1).mpr
    (by norm_num [avgMonthlyCommits, timeSpanMonths, dummyCommit, Int.fdiv])

/-! ## Evaluation lemmas for the sub-scores at the all-zero record -/

lemma moduleScore_zero : moduleScore 0 0 = 60 := by norm_num [moduleScore]

lemma sizeScore_zero : sizeScore 0 = 70 := by norm_num [sizeScore]

lemma sizeScore_one : sizeScore 1 = 52 := by norm_num [sizeScore]

lemma varScore_zero : varScore 0 0 = 50 := by
  unfold varScore
  norm_num [Real.zero_rpow]

lemma explicitScore_zero_attrs (hc : ℕ) : explicitScore hc 0 = 90 := by
  norm_num [explicitScore]

lemma attrScore_zero : attrScore 0 = 90 := by norm_num [attrScore]

lemma nestingScore_at :
    nestingScore 0 = 90 ∧ nestingScore 1 = 90 ∧ nestingScore 2 = 70 ∧
    nestingScore 3 = 45 ∧ nestingScore 5 = 21 := by
  refine ⟨by norm_num [nestingScore], by norm_num [nestingScore],
    by norm_num [nestingScore], by norm_num [nestingScore], ?_⟩
  unfold nestingScore
  norm_num

lemma complexityScore_zero : complexityScore 0 = 90 := by norm_num [complexityScore]

lemma depScore_zero : depScore 0 = 90 := by norm_num [depScore]

lemma depthScore_zero : depthScore 0 = 90 := by norm_num [depthScore]

lemma deprecatedScore_zero : deprecatedScore 0 = 90 := by
  unfold deprecatedScore
  norm_num

lemma wildcardScore_zero : wildcardScore 0 = 90 := by
  unfold wildcardScore
  norm_num

lemma dynamicScore_zero : dynamicScore 0 = 90 := by norm_num [dynamicScore]

lemma outputScore_zero_resources (no : ℕ) : outputScore no 0 = 70 := by
  norm_num [outputScore]

lemma dataScore_zero : dataScore 0 0 = 90 := by norm_num [dataScore]

/-- `round 8017.5 = 8018`: the exact-arithmetic rounding of the golden MI. -/
lemma round_golden : round ((8017.5 : ℝ)) = 8018 := by
  rw [round_eq]
  norm_num

/-- `calculate_mi` on the all-zero TerraMetric record and a 0-line block. -/
lemma calculateMi_empty_locZero (b : CodeBlock) (h : b.loc = 0) :
    calculateMi emptyMetrics b = 81.75 := by
  unfold calculateMi extractMetrics calcCompositionScore calcClarityScore
    calcDependencyScore calcSecurityScore calcOperationalScore
  dsimp only [emptyMetrics]
  rw [h, moduleScore_zero, sizeScore_zero, varScore_zero,
    explicitScore_zero_attrs, attrScore_zero, nestingScore_at.1,
    complexityScore_zero, depScore_zero, depthScore_zero, deprecatedScore_zero,
    wildcardScore_zero, dynamicScore_zero, outputScore_zero_resources, dataScore_zero]
  unfold roundTo2
  norm_num

/-- `calculate_mi` on the all-zero TerraMetric record and a 1-line block. -/
lemma calculateMi_empty_locOne (b : CodeBlock) (h : b.loc = 1) :
    calculateMi emptyMetrics b = 80.18 := by
  unfold calculateMi extractMetrics calcCompositionScore calcClarityScore
    calcDependencyScore calcSecurityScore calcOperationalScore
  dsimp only [emptyMetrics]
  rw [h, moduleScore_zero, sizeScore_one, varScore_zero,
    explicitScore_zero_attrs, attrScore_zero, nestingScore_at.1,
    complexityScore_zero, depScore_zero, depthScore_zero, deprecatedScore_zero,
    wildcardScore_zero, dynamicScore_zero, outputScore_zero_resources, dataScore_zero]
  unfold roundTo2
  have : (60 * 0.40 + 52 * 0.35 + 50 * 0.25) * 0.25 + (90 * 0.40 + 90 * 0.35 + 90 * 0.25) * 0.25 +
      (90 * 0.35 + 90 * 0.35 + 90 * 0.30) * 0.20 + (90 * 0.40 + 90 * 0.30 + 90 * 0.30) * 0.20 +
      (70 * 0.50 + 90 * 0.50) * 0.10 = (80.175 : ℝ) := by norm_num
  rw [this]
  have h2 : (80.175 : ℝ) * 100 = 8017.5 := by norm_num
  rw [h2, round_golden]
  norm_num

/-! ## Claims about the scoring engine: boundaries, monotonicity, neutrality -/

/-- Claim C2: with at least one resource or module, a module ratio of exactly
0.20 or exactly 0.60 scores exactly 90, while a ratio of exactly 0.19999
scores strictly below 90. -/
theorem moduleScore_boundary (nr nm : ℕ) (h : 0 < nr + nm) :
    ((nm : ℝ) / ((nr + nm : ℕ) : ℝ) = 0.2 → moduleScore nr nm = 90) ∧
    ((nm : ℝ) / ((nr + nm : ℕ) : ℝ) = 0.6 → moduleScore nr nm = 90) ∧
    ((nm : ℝ) / ((nr + nm : ℕ) : ℝ) = 0.19999 → moduleScore nr nm < 90) := by
  unfold moduleScore
  rw [if_pos h]
  refine ⟨fun hr => ?_, fun hr => ?_, fun hr => ?_⟩
  · rw [hr, if_pos (by norm_num)]
  · rw [hr, if_pos (by norm_num)]
  · rw [hr, if_neg (by norm_num), if_pos (by norm_num)]
    have h1 : ((0.19999 : ℝ) / 0.2) = 0.99995 := by norm_num
    have h2 : ((0.99995 : ℝ)) ^ (1.2 : ℝ) < 1 :=
      Real.rpow_lt_one (by norm_num) (by norm_num) (by norm_num)
    rw [h1]
    exact max_lt (by norm_num) (by nlinarith)

/-- Witness for C2 at the concrete records (4 resources, 1 module: ratio
exactly 0.2), (2 resources, 3 modules: ratio exactly 0.6) and (80001
resources, 19999 modules: ratio exactly 0.19999). -/
theorem moduleScore_boundary_witness :
    moduleScore 4 1 = 90 ∧ moduleScore 2 3 = 90 ∧ moduleScore 80001 19999 < 90 :=
  ⟨(moduleScore_boundary 4 1 (by norm_num)).1 (by norm_num),
   (moduleScore_boundary 2 3 (by norm_num)).2.1 (by norm_num),
   (moduleScore_boundary 80001 19999 (by norm_num)).2.2 (by norm_num)⟩

/-- Claim C6: holding every other metric fixed, the Configuration Clarity
category score is non-increasing along nesting depths 1 → 2 → 3 → 5. -/
theorem clarity_antitone_nesting (m : Metrics) :
    calcClarityScore { m with nestingDepth := 2 } ≤
      calcClarityScore { m with nestingDepth := 1 } ∧
    calcClarityScore { m with nestingDepth := 3 } ≤
      calcClarityScore { m with nestingDepth := 2 } ∧
    calcClarityScore { m with nestingDepth := 5 } ≤
      calcClarityScore { m with nestingDepth := 3 } := by
  unfold calcClarityScore
  dsimp only
  rw [nestingScore_at.2.1, nestingScore_at.2.2.1, nestingScore_at.2.2.2.1,
    nestingScore_at.2.2.2.2]
  refine ⟨by linarith, by linarith, by linarith⟩

/-- Claim C7: `calculate_mi` is a pure function of its two inputs — two
invocations on identical inputs return identical results. -/
theorem calculateMi_deterministic (tm tm2 : RawMetrics) (b b2 : CodeBlock)
    (h1 : tm = tm2) (h2 : b = b2) : calculateMi tm b = calculateMi tm2 b2 := by
  rw [h1, h2]

/-- Witness for C7 at a concrete input pair. -/
theorem calculateMi_deterministic_witness :
    calculateMi emptyMetrics zeroBlock = calculateMi emptyMetrics zeroBlock :=
  calculateMi_deterministic emptyMetrics emptyMetrics zeroBlock zeroBlock rfl rfl

/-- Claim C4: zero-denominator neutrality — zero attributes give explicitness
sub-score 90, zero resources give output sub-score 70, a tree with zero files
gets IaC ratio 0 and fails C4, and the all-zero TerraMetric record scores
without error (to the fixed value 81.75 on a zero-line block). -/
theorem zero_denominator_neutral (hc no : ℕ) (g : Option (List Commit))
    (b : CodeBlock) (hb : b.loc = 0) :
    explicitScore hc 0 = 90 ∧
    outputScore no 0 = 70 ∧
    iacRatio 0 0 = 0 ∧
    (analyzeRepository ⟨0, 0, g⟩).1.C4_Fail = true ∧
    calculateMi emptyMetrics b = 81.75 := by
  refine ⟨explicitScore_zero_attrs hc, outputScore_zero_resources no, by norm_num [iacRatio],
    ?_, calculateMi_empty_locZero b hb⟩
  unfold analyzeRepository
  rw [if_pos (by norm_num [iacRatio])]

/-- Witness for C4 at the all-zero block. -/
theorem zero_denominator_neutral_witness :
    explicitScore 3 0 = 90 ∧ outputScore 5 0 = 70 ∧ iacRatio 0 0 = 0 ∧
    (analyzeRepository ⟨0, 0, none⟩).1.C4_Fail = true ∧
    calculateMi emptyMetrics zeroBlock = 81.75 :=
  zero_denominator_neutral 3 5 none zeroBlock rfl

/-! ## Range lemmas: every sub-score lies in [15, 95] -/

lemma moduleScore_bounds (nr nm : ℕ) :
    15 ≤ moduleScore nr nm ∧ moduleScore nr nm ≤ 95 := by
  unfold moduleScore
  dsimp only
  split_ifs with h1 h2 h3
  · norm_num
  · have hr0 : (0 : ℝ) ≤ (nm : ℝ) / ((nr + nm : ℕ) : ℝ) := by positivity
    have hle : ((nm : ℝ) / ((nr + nm : ℕ) : ℝ)) / 0.2 ≤ 1 := by
      rw [div_le_one (by norm_num)]
      linarith
    have hp : (((nm : ℝ) / ((nr + nm : ℕ) : ℝ)) / 0.2) ^ (1.2 : ℝ) ≤ 1 :=
      Real.rpow_le_one (by positivity) hle (by norm_num)
    constructor
    · exact le_trans (by norm_num) (le_max_left _ _)
    · exact max_le (by norm_num) (by nlinarith)
  · have hr6 : (0.6 : ℝ) < (nm : ℝ) / ((nr + nm : ℕ) : ℝ) :=
      not_le.mp fun hle => h2 ⟨not_lt.mp h3, hle⟩
    constructor
    · exact le_trans (by norm_num) (le_max_left _ _)
    · exact max_le (by norm_num) (by nlinarith)
  · norm_num

lemma sizeScore_bounds (n : ℕ) : 15 ≤ sizeScore n ∧ sizeScore n ≤ 95 := by
  unfold sizeScore
  split_ifs with h1 h2 h3 h4
  · norm_num
  · have l1 : (10 : ℝ) ≤ n := by exact_mod_cast h2.1
    have l2 : (n : ℝ) ≤ 25 := by exact_mod_cast h3
    constructor <;> nlinarith
  · have l1 : (25 : ℝ) ≤ n := by exact_mod_cast (by omega : 25 ≤ n)
    have l2 : (n : ℝ) ≤ 60 := by exact_mod_cast h2.2
    constructor <;> nlinarith
  · have l1 : (1 : ℝ) ≤ n := by exact_mod_cast (by omega : 1 ≤ n)
    have l2 : (n : ℝ) ≤ 9 := by exact_mod_cast (by omega : n ≤ 9)
    constructor <;> nlinarith
  · have l1 : (60 : ℝ) ≤ n := by exact_mod_cast (by omega : 60 ≤ n)
    have hp : 0 ≤ ((n : ℝ) - 60) ^ (1.1 : ℝ) := Real.rpow_nonneg (by linarith) _
    constructor
    · exact le_trans (by norm_num) (le_max_left _ _)
    · exact max_le (by norm_num) (by nlinarith)

lemma varScore_bounds (nv nb : ℕ) : 15 ≤ varScore nv nb ∧ varScore nv nb ≤ 95 := by
  unfold varScore
  dsimp only
  split_ifs with h1 h2
  · norm_num
  · have hr0 : (0 : ℝ) ≤ (nv : ℝ) / ((max nb 1 : ℕ) : ℝ) := by positivity
    have hle : ((nv : ℝ) / ((max nb 1 : ℕ) : ℝ)) / 0.4 ≤ 1 := by
      rw [div_le_one (by norm_num)]
      linarith
    have hp : (((nv : ℝ) / ((max nb 1 : ℕ) : ℝ)) / 0.4) ^ (1.1 : ℝ) ≤ 1 :=
      Real.rpow_le_one (by positivity) hle (by norm_num)
    constructor
    · exact le_trans (by norm_num) (le_max_left _ _)
    · exact max_le (by norm_num) (by nlinarith)
  · have hr6 : (1.5 : ℝ) < (nv : ℝ) / ((max nb 1 : ℕ) : ℝ) :=
      not_le.mp fun hle => h1 ⟨not_lt.mp h2, hle⟩
    constructor
    · exact le_trans (by norm_num) (le_max_left _ _)
    · exact max_le (by norm_num) (by nlinarith)

lemma explicitScore_bounds (hc na : ℕ) :
    15 ≤ explicitScore hc na ∧ explicitScore hc na ≤ 95 := by
  unfold explicitScore
  dsimp only
  split_ifs with h1 h2
  · norm_num
  · have hr : (0.25 : ℝ) < (hc : ℝ) / (na : ℝ) := not_le.mp h2
    have hle : (0.25 : ℝ) / ((hc : ℝ) / (na : ℝ)) ≤ 1 := by
      rw [div_le_one (by linarith)]
      linarith
    have hp : ((0.25 : ℝ) / ((hc : ℝ) / (na : ℝ))) ^ (1.2 : ℝ) ≤ 1 :=
      Real.rpow_le_one (by positivity) hle (by norm_num)
    constructor
    · exact le_trans (by norm_num) (le_max_left _ _)
    · exact max_le (by norm_num) (by nlinarith)
  · norm_num

lemma attrScore_bounds (n : ℕ) : 15 ≤ attrScore n ∧ attrScore n ≤ 95 := by
  unfold attrScore
  split_ifs with h1 h2
  · norm_num
  · have l1 : (13 : ℝ) ≤ n := by exact_mod_cast (by omega : 13 ≤ n)
    have l2 : (n : ℝ) ≤ 25 := by exact_mod_cast h2
    constructor <;> nlinarith
  · have l1 : (25 : ℝ) ≤ n := by exact_mod_cast (by omega : 25 ≤ n)
    have hp : 0 ≤ ((n : ℝ) - 25) ^ (1.2 : ℝ) := Real.rpow_nonneg (by linarith) _
    constructor
    · exact le_trans (by norm_num) (le_max_left _ _)
    · exact max_le (by norm_num) (by nlinarith)

lemma nestingScore_bounds (n : ℕ) : 15 ≤ nestingScore n ∧ nestingScore n ≤ 95 := by
  unfold nestingScore
  split_ifs with h1 h2 h3
  · norm_num
  · norm_num
  · norm_num
  · have l1 : (3 : ℝ) ≤ n := by exact_mod_cast (by omega : 3 ≤ n)
    constructor
    · exact le_max_left _ _
    · exact max_le (by norm_num) (by nlinarith)

lemma complexityScore_bounds (n : ℕ) :
    15 ≤ complexityScore n ∧ complexityScore n ≤ 95 := by
  unfold complexityScore
  split_ifs with h1 h2
  · norm_num
  · have l1 : (4 : ℝ) ≤ n := by exact_mod_cast (by omega : 4 ≤ n)
    have l2 : (n : ℝ) ≤ 8 := by exact_mod_cast h2
    constructor <;> nlinarith
  · have l1 : (8 : ℝ) ≤ n := by exact_mod_cast (by omega : 8 ≤ n)
    have hp : 0 ≤ ((n : ℝ) - 8) ^ (1.2 : ℝ) := Real.rpow_nonneg (by linarith) _
    constructor
    · exact le_trans (by norm_num) (le_max_left _ _)
    · exact max_le (by norm_num) (by nlinarith)

lemma depScore_bounds (n : ℕ) : 15 ≤ depScore n ∧ depScore n ≤ 95 := by
  unfold depScore
  split_ifs with h1 h2
  · norm_num
  · have l1 : (3 : ℝ) ≤ n := by exact_mod_cast (by omega : 3 ≤ n)
    have l2 : (n : ℝ) ≤ 6 := by exact_mod_cast h2
    constructor <;> nlinarith
  · have l1 : (6 : ℝ) ≤ n := by exact_mod_cast (by omega : 6 ≤ n)
    have hp : 0 ≤ ((n : ℝ) - 6) ^ (1.2 : ℝ) := Real.rpow_nonneg (by linarith) _
    constructor
    · exact le_trans (by norm_num) (le_max_left _ _)
    · exact max_le (by norm_num) (by nlinarith)

lemma depthScore_bounds (n : ℕ) : 15 ≤ depthScore n ∧ depthScore n ≤ 95 := by
  unfold depthScore
  split_ifs with h1 h2
  · norm_num
  · have l1 : (1 : ℝ) ≤ n := by exact_mod_cast (by omega : 1 ≤ n)
    have l2 : (n : ℝ) ≤ 3 := by exact_mod_cast h2
    constructor <;> nlinarith
  · have l1 : (3 : ℝ) ≤ n := by exact_mod_cast (by omega : 3 ≤ n)
    constructor
    · exact le_trans (by norm_num) (le_max_left _ _)
    · exact max_le (by norm_num) (by nlinarith)

lemma deprecatedScore_bounds (n : ℕ) :
    15 ≤ deprecatedScore n ∧ deprecatedScore n ≤ 95 := by
  unfold deprecatedScore
  have l0 : (0 : ℝ) ≤ n := Nat.cast_nonneg n
  constructor
  · exact le_trans (by norm_num) (le_max_left _ _)
  · exact max_le (by norm_num) (by nlinarith)

lemma wildcardScore_bounds (n : ℕ) :
    15 ≤ wildcardScore n ∧ wildcardScore n ≤ 95 := by
  unfold wildcardScore
  have l0 : (0 : ℝ) ≤ n := Nat.cast_nonneg n
  constructor
  · exact le_trans (by norm_num) (le_max_left _ _)
  · exact max_le (by norm_num) (by nlinarith)

lemma dynamicScore_bounds (n : ℕ) : 15 ≤ dynamicScore n ∧ dynamicScore n ≤ 95 := by
  unfold dynamicScore
  split_ifs with h1 h2 h3
  · norm_num
  · norm_num
  · have l1 : (3 : ℝ) ≤ n := by exact_mod_cast (by omega : 3 ≤ n)
    have l2 : (n : ℝ) ≤ 4 := by exact_mod_cast h3
    constructor <;> nlinarith
  · have l1 : (4 : ℝ) ≤ n := by exact_mod_cast (by omega : 4 ≤ n)
    constructor
    · exact le_trans (by norm_num) (le_max_left _ _)
    · exact max_le (by norm_num) (by nlinarith)

lemma outputScore_bounds (no nr : ℕ) :
    15 ≤ outputScore no nr ∧ outputScore no nr ≤ 95 := by
  unfold outputScore
  dsimp only
  split_ifs with h1 h2 h3
  · norm_num
  · have hr0 : (0 : ℝ) ≤ (no : ℝ) / (nr : ℝ) := by positivity
    have hle : ((no : ℝ) / (nr : ℝ)) / 0.25 ≤ 1 := by
      rw [div_le_one (by norm_num)]
      linarith
    have hp : (((no : ℝ) / (nr : ℝ)) / 0.25) ^ (1.2 : ℝ) ≤ 1 :=
      Real.rpow_le_one (by positivity) hle (by norm_num)
    constructor
    · exact le_trans (by norm_num) (le_max_left _ _)
    · exact max_le (by norm_num) (by nlinarith)
  · have hr6 : (0.75 : ℝ) < (no : ℝ) / (nr : ℝ) :=
      not_le.mp fun hle => h2 ⟨not_lt.mp h3, hle⟩
    constructor
    · exact le_trans (by norm_num) (le_max_left _ _)
    · exact max_le (by norm_num) (by nlinarith)
  · norm_num

lemma dataScore_bounds (nd nr : ℕ) :
    15 ≤ dataScore nd nr ∧ dataScore nd nr ≤ 95 := by
  unfold dataScore
  dsimp only
  split_ifs with h1 h2
  · norm_num
  · have hr : (0.25 : ℝ) < (nd : ℝ) / ((max (nr + nd) 1 : ℕ) : ℝ) := not_le.mp h1
    have hle : (nd : ℝ) / ((max (nr + nd) 1 : ℕ) : ℝ) ≤ 0.4 := h2
    constructor <;> nlinarith
  · have hr : (0.4 : ℝ) < (nd : ℝ) / ((max (nr + nd) 1 : ℕ) : ℝ) := not_le.mp h2
    have hp : 0 ≤ ((nd : ℝ) / ((max (nr + nd) 1 : ℕ) : ℝ) - 0.4) ^ (1.2 : ℝ) :=
      Real.rpow_nonneg (by linarith) _
    constructor
    · exact le_trans (by norm_num) (le_max_left _ _)
    · exact max_le (by norm_num) (by nlinarith)

/-! ## Range lemmas for the five categories and the final score -/

lemma calcCompositionScore_bounds (m : Metrics) :
    15 ≤ calcCompositionScore m ∧ calcCompositionScore m ≤ 95 := by
  obtain ⟨a1, a2⟩ := moduleScore_bounds m.numResources m.numModules
  obtain ⟨b1, b2⟩ := sizeScore_bounds m.blockLoc
  obtain ⟨c1, c2⟩ := varScore_bounds m.numVariables m.numBlocks
  unfold calcCompositionScore
  constructor <;> nlinarith

lemma calcClarityScore_bounds (m : Metrics) :
    15 ≤ calcClarityScore m ∧ calcClarityScore m ≤ 95 := by
  obtain ⟨a1, a2⟩ := explicitScore_bounds m.numHardCoded m.numAttrs
  obtain ⟨b1, b2⟩ := attrScore_bounds m.numAttrs
  obtain ⟨c1, c2⟩ := nestingScore_bounds m.nestingDepth
  unfold calcClarityScore
  constructor <;> nlinarith

lemma calcDependencyScore_bounds (m : Metrics) :
    15 ≤ calcDependencyScore m ∧ calcDependencyScore m ≤ 95 := by
  obtain ⟨a1, a2⟩ := complexityScore_bounds m.complexity
  obtain ⟨b1, b2⟩ := depScore_bounds m.numDependencies
  obtain ⟨c1, c2⟩ := depthScore_bounds m.graphDepth
  unfold calcDependencyScore
  constructor <;> nlinarith

lemma calcSecurityScore_bounds (m : Metrics) :
    15 ≤ calcSecurityScore m ∧ calcSecurityScore m ≤ 95 := by
  obtain ⟨a1, a2⟩ := deprecatedScore_bounds m.numDeprecated
  obtain ⟨b1, b2⟩ := wildcardScore_bounds m.numWildcards
  obtain ⟨c1, c2⟩ := dynamicScore_bounds (m.numLoops + m.numConditions)
  unfold calcSecurityScore
  constructor <;> nlinarith

lemma calcOperationalScore_bounds (m : Metrics) :
    15 ≤ calcOperationalScore m ∧ calcOperationalScore m ≤ 95 := by
  obtain ⟨a1, a2⟩ := outputScore_bounds m.numOutputs m.numResources
  obtain ⟨b1, b2⟩ := dataScore_bounds m.numData m.numResources
  unfold calcOperationalScore
  constructor <;> nlinarith

lemma roundTo2_bounds (x : ℝ) (h0 : 0 ≤ x) (h1 : x ≤ 100) :
    0 ≤ roundTo2 x ∧ roundTo2 x ≤ 100 := by
  unfold roundTo2
  have hl : (0 : ℤ) ≤ round (x * 100) := by
    rw [round_eq]
    exact Int.le_floor.mpr (by push_cast; linarith)
  have hu : round (x * 100) ≤ 10000 := by
    rw [round_eq]
    have hx : x * 100 + 1 / 2 < ((10001 : ℤ) : ℝ) := by push_cast; linarith
    have := Int.floor_lt.mpr hx
    omega
  constructor
  · exact div_nonneg (by exact_mod_cast hl) (by norm_num)
  · rw [div_le_iff₀ (by norm_num)]
    calc ((round (x * 100) : ℤ) : ℝ) ≤ ((10000 : ℤ) : ℝ) := by exact_mod_cast hu
    _ = 100 * 100 := by norm_num

/-- Claim C3: for every TerraMetric record and code block (all metric values
are counts, hence non-negative), `calculate_mi` is the five category scores
blended with weights 0.25, 0.25, 0.20, 0.20, 0.10 and rounded to two decimal
places, and it lies in [0, 100]. -/
theorem calculateMi_range (tm : RawMetrics) (b : CodeBlock) :
    0 ≤ calculateMi tm b ∧ calculateMi tm b ≤ 100 ∧
    calculateMi tm b =
      roundTo2 (calcCompositionScore (extractMetrics tm b) * 0.25 +
        calcClarityScore (extractMetrics tm b) * 0.25 +
        calcDependencyScore (extractMetrics tm b) * 0.20 +
        calcSecurityScore (extractMetrics tm b) * 0.20 +
        calcOperationalScore (extractMetrics tm b) * 0.10) := by
  obtain ⟨a1, a2⟩ := calcCompositionScore_bounds (extractMetrics tm b)
  obtain ⟨b1, b2⟩ := calcClarityScore_bounds (extractMetrics tm b)
  obtain ⟨c1, c2⟩ := calcDependencyScore_bounds (extractMetrics tm b)
  obtain ⟨d1, d2⟩ := calcSecurityScore_bounds (extractMetrics tm b)
  obtain ⟨e1, e2⟩ := calcOperationalScore_bounds (extractMetrics tm b)
  obtain ⟨r1, r2⟩ := roundTo2_bounds
    (calcCompositionScore (extractMetrics tm b) * 0.25 +
      calcClarityScore (extractMetrics tm b) * 0.25 +
      calcDependencyScore (extractMetrics tm b) * 0.20 +
      calcSecurityScore (extractMetrics tm b) * 0.20 +
      calcOperationalScore (extractMetrics tm b) * 0.10) (by nlinarith) (by nlinarith)
  exact ⟨r1, r2, rfl⟩

/-! ## Line accounting for extracted blocks -/

lemma splitNl_ne_nil : ∀ cs : List Char, splitNl cs ≠ []
  | [] => by simp [splitNl]
  | c :: cs => by
    unfold splitNl
    split_ifs
    · simp
    · cases h : splitNl cs <;> simp

lemma not_mem_splitNl (cs : List Char) : ∀ l ∈ splitNl cs, '\n' ∉ l := by
  induction cs with
  | nil =>
    intro l hl
    simp only [splitNl, List.mem_singleton] at hl
    subst hl
    simp
  | cons c cs ih =>
    intro l hl
    unfold splitNl at hl
    by_cases hc : c = '\n'
    · rw [if_pos hc] at hl
      rw [List.mem_cons] at hl
      rcases hl with rfl | hl
      · simp
      · exact ih l hl
    · rw [if_neg hc] at hl
      rcases h : splitNl cs with _ | ⟨t, ts⟩
      · exact absurd h (splitNl_ne_nil cs)
      · rw [h] at hl
        rw [List.mem_cons] at hl
        rcases hl with rfl | hl
        · intro hmem
          rw [List.mem_cons] at hmem
          rcases hmem with h1 | h2
          · exact hc h1.symm
          · exact ih t (by rw [h]; exact List.mem_cons_self t ts) h2
        · exact ih l (by rw [h]; exact List.mem_cons_of_mem t hl)

lemma splitNl_cons_ne (c : Char) (cs : List Char) (hc : c ≠ '\n') :
    splitNl (c :: cs) = (c :: (splitNl cs).headD []) :: (splitNl cs).tail := by
  conv_lhs => rw [splitNl]
  rw [if_neg hc]
  rcases h : splitNl cs with _ | ⟨t, ts⟩
  · exact absurd h (splitNl_ne_nil cs)
  · rfl

lemma splitNl_no_nl (l : List Char) (h : '\n' ∉ l) : splitNl l = [l] := by
  induction l with
  | nil => rfl
  | cons c l ih =>
    have hc : c ≠ '\n' := fun hcc => h (hcc ▸ List.mem_cons_self c l)
    have h2 : '\n' ∉ l := fun hm => h (List.mem_cons_of_mem c hm)
    rw [splitNl_cons_ne c l hc, ih h2]
    rfl

lemma splitNl_append (l cs : List Char) (h : '\n' ∉ l) :
    splitNl (l ++ '\n' :: cs) = l :: splitNl cs := by
  induction l with
  | nil => simp [splitNl]
  | cons c l ih =>
    have hc : c ≠ '\n' := fun hcc => h (hcc ▸ List.mem_cons_self c l)
    have h2 : '\n' ∉ l := fun hm => h (List.mem_cons_of_mem c hm)
    rw [List.cons_append, splitNl_cons_ne c _ hc, ih h2]
    rfl

lemma splitNl_joinNl : ∀ ls : List (List Char), ls ≠ [] → (∀ l ∈ ls, '\n' ∉ l) →
    splitNl (joinNl ls) = ls
  | [], h, _ => absurd rfl h
  | [l], _, h2 => by
    unfold joinNl
    exact splitNl_no_nl l (h2 l (List.mem_cons_self l []))
  | l :: l2 :: ls, _, h2 => by
    unfold joinNl
    rw [splitNl_append _ _ (h2 l (List.mem_cons_self _ _)),
      splitNl_joinNl (l2 :: ls) (by simp) (fun x hx => h2 x (List.mem_cons_of_mem _ hx))]

/-- The brace matcher returns, on success, a closing line number and a block
text whose line count is exactly the number of accumulated lines: lines
`idx, …, end-1` in 0-based terms, that is `end - idx` lines. -/
lemma extractBlockAux_loc :
    ∀ (ls : List (List Char)) (bc : ℤ) (ib : Bool) (acc : List (List Char)) (idx : ℕ),
      (∀ l ∈ acc, '\n' ∉ l) → (∀ l ∈ ls, '\n' ∉ l) →
      0 < (extractBlockAux bc ib acc idx ls).1 →
      ((splitNl (extractBlockAux bc ib acc idx ls).2).length : ℤ) + idx =
        acc.length + (extractBlockAux bc ib acc idx ls).1
  | [], bc, ib, acc, idx, _, _, hpos => by simp [extractBlockAux] at hpos
  | l :: ls, bc, ib, acc, idx, hacc, hls, hpos => by
    have hl : '\n' ∉ l := hls l (List.mem_cons_self _ _)
    have hacc2 : ∀ x ∈ acc ++ [l], '\n' ∉ x := by
      intro x hx
      rcases List.mem_append.mp hx with hx | hx
      · exact hacc x hx
      · rw [List.mem_singleton] at hx
        subst hx
        exact hl
    rcases hstep : lineStep bc ib l with _ | ⟨bc2, ib2⟩
    · have hres : extractBlockAux bc ib acc idx (l :: ls) =
          ((idx : ℤ) + 1, joinNl (acc ++ [l])) := by
        conv_lhs => rw [extractBlockAux]
        rw [hstep]
      rw [hres]
      dsimp only
      rw [splitNl_joinNl (acc ++ [l]) (by simp) hacc2]
      simp only [List.length_append, List.length_singleton]
      push_cast
      ring
    · have hres : extractBlockAux bc ib acc idx (l :: ls) =
          extractBlockAux bc2 ib2 (acc ++ [l]) (idx + 1) ls := by
        conv_lhs => rw [extractBlockAux]
        rw [hstep]
      rw [hres] at hpos ⊢
      have ih := extractBlockAux_loc ls bc2 ib2 (acc ++ [l]) (idx + 1) hacc2
        (fun x hx => hls x (List.mem_cons_of_mem _ hx)) hpos
      simp only [List.length_append, List.length_singleton] at ih ⊢
      push_cast at ih ⊢
      omega

lemma extractBlock_loc (lines : List (List Char)) (startIdx : ℕ)
    (h : ∀ l ∈ lines, '\n' ∉ l) (hpos : 0 < (extractBlock lines startIdx).1) :
    ((splitNl (extractBlock lines startIdx).2).length : ℤ) + startIdx =
      (extractBlock lines startIdx).1 := by
  have := extractBlockAux_loc (lines.drop startIdx) 0 false [] startIdx (by simp)
    (fun l hl => h l (List.mem_of_mem_drop hl)) hpos
  simpa [extractBlock] using this

/-! ## Claims about the extractor -/

/-- Claim C9, amended: every extracted block's line range is inclusive on
both ends — its verbatim text has exactly `end_line - start_line + 1` lines
(not `end_line - start_line`: the recorded end line is the last line of the
block, not one past it). -/
theorem block_line_range_inclusive (content relativePath : String) (b : CodeBlock)
    (hb : b ∈ parseTfFile content relativePath) :
    (b.loc : ℤ) = b.endLine - b.startLine + 1 := by
  simp only [parseTfFile, List.mem_flatMap, List.mem_filterMap] at hb
  obtain ⟨pat, hpat, mt, hmt, heq⟩ := hb
  by_cases hpos :
      (extractBlock (splitNl content.toList)
        ((content.toList.take mt.1).count '\n' + 1 - 1)).1 > 0
  · rw [if_pos hpos] at heq
    obtain rfl := Option.some.inj heq
    dsimp only
    have hlines := extractBlock_loc (splitNl content.toList)
      ((content.toList.take mt.1).count '\n' + 1 - 1)
      (not_mem_splitNl content.toList) hpos
    push_cast at hlines ⊢
    omega
  · rw [if_neg hpos] at heq
    cases heq

/-- Witness for the amended C9 at the first extracted block of the synthetic
file. -/
theorem block_line_range_inclusive_witness :
    (resourceBlockAB.loc : ℤ) = resourceBlockAB.endLine - resourceBlockAB.startLine + 1 :=
  block_line_range_inclusive synthContent "main.tf" resourceBlockAB (by decide)

/-- Counterexample to C9 as stated: the first block extracted from the
synthetic file spans exactly line 1 with one line of text, so its line count
is `end - start + 1 = 1`, not `end - start = 0`. -/
theorem block_line_range_not_half_open :
    resourceBlockAB ∈ parseTfFile synthContent "main.tf" ∧
    ¬ ((resourceBlockAB.loc : ℤ) = resourceBlockAB.endLine - resourceBlockAB.startLine) :=
  ⟨by decide, by decide⟩

/-- Counterexample to C1 as stated: the extractor does return the two blocks
`a.b` and `x`, but each of them is one line long, so the block-size sub-score
of the §4.5 formulas at their recorded size is 52, not the claimed 70 (the
70 branch is reserved for a recorded size of 0). -/
theorem endToEnd_sizeScore_not_70 :
    ((parseTfFile synthContent "main.tf").headD zeroBlock).loc = 1 ∧
    ¬ sizeScore ((parseTfFile synthContent "main.tf").headD zeroBlock).loc = 70 := by
  have h : ((parseTfFile synthContent "main.tf").headD zeroBlock).loc = 1 := by decide
  refine ⟨h, ?_⟩
  rw [h, sizeScore_one]
  norm_num

/-- Claim C1, amended: the synthetic file extracts exactly the two blocks
`a.b` (resource) and `x` (variable); with the all-zero TerraMetric record the
module sub-score is the neutral 60 and the size sub-score is 52 (each block
is one line long), and the final rounded score of each block is exactly
80.18. -/
theorem endToEnd_golden :
    parseTfFile synthContent "main.tf" = [resourceBlockAB, variableBlockX] ∧
    moduleScore 0 0 = 60 ∧
    sizeScore 1 = 52 ∧
    calculateMi emptyMetrics resourceBlockAB = 80.18 ∧
    calculateMi emptyMetrics variableBlockX = 80.18 :=
  ⟨by decide, moduleScore_zero, sizeScore_one,
   calculateMi_empty_locOne resourceBlockAB rfl,
   calculateMi_empty_locOne variableBlockX rfl⟩
